import Mathlib

/-!
Verification development for the Sideways casino mini-game engine.

The repository ships the React client (frontend/src/components/GameDashboard.js,
holding the GameDashboard and SlotMachine components, plus the UserStats view).
The HTTP backend that serves /spin, /daily-bonus and /user-stats is not part of
the repository sources; where a property is decided by that missing backend we
model the operation from the specification and mark the definition as such.

All quantities that the program stores as JS numbers are modelled as Int
(credits, payouts) or Nat (bets, counters, timestamps in milliseconds); every
arithmetic operation performed by the code is additive on integral values, so
the embedding is exact.
-/

/-- Reel symbols appearing in the slot machines of GameDashboard.js.
cherry 🍒, lemon 🍋, orange 🍊, star ⭐, bell 🔔, diamond 💎, seven 7️⃣,
crown 👑, moneybag 💰, gift 🎁 (the bonus symbol). -/
inductive ReelSymbol where
  | cherry
  | lemon
  | orange
  | star
  | bell
  | diamond
  | seven
  | crown
  | moneybag
  | gift
deriving DecidableEq, Repr

/-- Win tiers used by the client (getWinTypeColor) and the spec. -/
inductive WinTier where
  | small
  | medium
  | big
  | jackpot
deriving DecidableEq, Repr

/-- Machine types selectable from GameDashboard (handleSlotSelect). -/
inductive SlotType where
  | classic_3_reel
  | video_5_reel
  | bonus_slots
deriving DecidableEq, Repr

/-- Per-machine configuration, from the slotConfig literal in the
SlotMachine component (GameDashboard.js lines 308-330). -/
structure SlotConfig where
  reelCount : Nat
  minBet : Nat
  maxBet : Nat
deriving DecidableEq, Repr

/-- The slotConfig table of the SlotMachine component. -/
def slotConfig : SlotType → SlotConfig
  | .classic_3_reel => { reelCount := 3, minBet := 5, maxBet := 100 }
  | .video_5_reel => { reelCount := 5, minBet := 10, maxBet := 200 }
  | .bonus_slots => { reelCount := 5, minBet := 15, maxBet := 300 }

/-- The user record consumed and updated by the client
(fields named as in the JS user object). -/
structure UserState where
  credits : Int
  total_winnings : Int
  games_played : Nat
  level : Nat
  vip_status : Bool
  lastBonus : Option Nat
deriving DecidableEq, Repr

/-- The SlotMachine component gameState (GameDashboard.js lines 294-302). -/
structure GameState where
  reels : List ReelSymbol
  isSpinning : Bool
  betAmount : Nat
  lastWin : Int
  winType : Option WinTier
  freeSpinsRemaining : Nat
  bonusMultiplier : Nat
deriving DecidableEq, Repr

/-- Shape of the backend response to POST /api/spin as the client reads it
(result.reels, result.payout, result.win_type, result.free_spins_awarded,
result.multiplier, result.bonus_triggered). -/
structure SpinResult where
  reels : List ReelSymbol
  payout : Int
  win_type : Option WinTier
  free_spins_awarded : Nat
  multiplier : Nat
  bonus_triggered : Bool
deriving DecidableEq, Repr

/-- How a handleSpin call ends: silently ignored while already spinning,
rejected with the insufficient-credits toast, or settled. -/
inductive SpinStatus where
  | busy
  | insufficientCredits
  | settled
deriving DecidableEq, Repr

/-- Result of one complete handleSpin call: its status and the user and
game states after the call. -/
structure SpinStep where
  status : SpinStatus
  user : UserState
  game : GameState
deriving DecidableEq, Repr

/-- The handleSpin handler of the SlotMachine component
(GameDashboard.js lines 347-437), modelled as the completed request:
the guard on gameState.isSpinning, the guard rejecting
user.credits < betAmount, and otherwise the settle performed in the
setTimeout callback (lines 376-393): reels, lastWin, winType,
freeSpinsRemaining += free_spins_awarded, bonusMultiplier from the result,
and onUpdateUser with credits = credits - betAmount + payout,
total_winnings += payout, games_played += 1.  The bet is debited on this
path unconditionally; freeSpinsRemaining is never decremented. -/
def handleSpin (u : UserState) (gs : GameState) (result : SpinResult) : SpinStep :=
  if gs.isSpinning then
    { status := .busy, user := u, game := gs }
  else if u.credits < (gs.betAmount : Int) then
    { status := .insufficientCredits, user := u, game := gs }
  else
    { status := .settled
      user :=
        { u with
          credits := u.credits - (gs.betAmount : Int) + result.payout
          total_winnings := u.total_winnings + result.payout
          games_played := u.games_played + 1 }
      game :=
        { gs with
          isSpinning := false
          reels := result.reels
          lastWin := result.payout
          winType := result.win_type
          freeSpinsRemaining := gs.freeSpinsRemaining + result.free_spins_awarded
          bonusMultiplier := result.multiplier } }

/-- Run a sequence of spins through handleSpin; each element carries the
bet set on the slider before that spin and the backend result for it. -/
def runSpins : UserState → GameState → List (Nat × SpinResult) → UserState × GameState
  | u, gs, [] => (u, gs)
  | u, gs, (b, r) :: rest =>
      let step := handleSpin u { gs with betAmount := b } r
      runSpins step.user step.game rest

/-- Every spin of the sequence settles (none is rejected). -/
def allSettled : UserState → GameState → List (Nat × SpinResult) → Bool
  | _, _, [] => true
  | u, gs, (b, r) :: rest =>
      let step := handleSpin u { gs with betAmount := b } r
      step.status == .settled && allSettled step.user step.game rest

/-- Running sum of the payouts of a spin sequence. -/
def sumPayouts : List (Nat × SpinResult) → Int
  | [] => 0
  | p :: l => p.2.payout + sumPayouts l

/-- Running sum of the bets of a spin sequence. -/
def sumBets : List (Nat × SpinResult) → Int
  | [] => 0
  | p :: l => (p.1 : Int) + sumBets l

/-- One paytable row: winning symbol, win tier, payout multiplier. -/
structure PayEntry where
  sym : ReelSymbol
  tier : WinTier
  mult : Nat
deriving DecidableEq, Repr

/-- Modelled from the spec: the paytable of each machine (the serving
backend is absent from the repository).  Rows are listed in descending
payout order; the multipliers and symbols are the ones the client shows in
the SlotMachine paytable panel (GameDashboard.js lines 676-714):
classic 💎 1000x, 7️⃣ 500x, ⭐ 100x, 🔔 50x; five-reel 👑 5000x,
💎 2500x, 💰 1000x. -/
def paytable : SlotType → List PayEntry
  | .classic_3_reel =>
      [ { sym := .diamond, tier := .jackpot, mult := 1000 }
      , { sym := .seven, tier := .big, mult := 500 }
      , { sym := .star, tier := .medium, mult := 100 }
      , { sym := .bell, tier := .small, mult := 50 } ]
  | .video_5_reel =>
      [ { sym := .crown, tier := .jackpot, mult := 5000 }
      , { sym := .diamond, tier := .big, mult := 2500 }
      , { sym := .moneybag, tier := .medium, mult := 1000 } ]
  | .bonus_slots =>
      [ { sym := .crown, tier := .jackpot, mult := 5000 }
      , { sym := .diamond, tier := .big, mult := 2500 }
      , { sym := .moneybag, tier := .medium, mult := 1000 } ]

/-- Modelled from the spec: bonus-symbol configuration (qualifying count,
free spins awarded) per machine; the classic machine has no bonus symbol,
the five-reel machines trigger on at least 3 bonus symbols and grant 10
free spins. -/
def bonusInfo : SlotType → Option (Nat × Nat)
  | .classic_3_reel => none
  | .video_5_reel => some (3, 10)
  | .bonus_slots => some (3, 10)

/-- Output of paytable evaluation. -/
structure EvalOut where
  tier : Option WinTier
  multiplier : Nat
  bonusTriggered : Bool
  freeSpinsAwarded : Nat
deriving DecidableEq, Repr

/-- First paytable row whose pattern (all positions equal to the row
symbol) matches; the paytable is in descending payout order, so the best
matching pattern wins. -/
def findMatch (pt : List PayEntry) (syms : List ReelSymbol) : Option PayEntry :=
  pt.find? (fun e => syms.all (fun s => s == e.sym))

/-- Modelled from the spec: the paytable evaluator of the absent backend.
Best matching all-equal pattern decides tier and multiplier (none and 0
when nothing matches); when the machine has a bonus symbol and it appears
in at least the qualifying count, the bonus triggers and the configured
free spins are awarded. -/
def evaluate (st : SlotType) (syms : List ReelSymbol) : EvalOut :=
  let base : EvalOut :=
    match findMatch (paytable st) syms with
    | some e =>
        { tier := some e.tier, multiplier := e.mult
          bonusTriggered := false, freeSpinsAwarded := 0 }
    | none =>
        { tier := none, multiplier := 0
          bonusTriggered := false, freeSpinsAwarded := 0 }
  match bonusInfo st with
  | some q =>
      if q.1 ≤ syms.count .gift then
        { base with bonusTriggered := true, freeSpinsAwarded := q.2 }
      else base
  | none => base

/-- Modelled from the spec: the backend response to a spin with the given
reels, as the absent /api/spin handler would build it: payout is
bet times the paytable multiplier, tiers and bonus data from the
evaluator, no active win multiplier. -/
def resolveSpin (st : SlotType) (bet : Nat) (syms : List ReelSymbol) : SpinResult :=
  let e := evaluate st syms
  { reels := syms
    payout := (bet : Int) * (e.multiplier : Int)
    win_type := e.tier
    free_spins_awarded := e.freeSpinsAwarded
    multiplier := 1
    bonus_triggered := e.bonusTriggered }

/-- Modelled from the spec: level as a pure function of games played,
level = floor(gamesPlayed / 100) + 1 (the recomputation lives in the
absent backend; the UserStats view derives its progress display from the
same formula). -/
def levelOf (gamesPlayed : Nat) : Nat :=
  gamesPlayed / 100 + 1

/-- Modelled from the spec: the Settle step of the absent backend spin
orchestrator: add the payout, debit the bet, bump counters, recompute
level and the VIP flag (VIP once level is at least 5). -/
def serverSettle (u : UserState) (bet : Nat) (payout : Int) : UserState :=
  { u with
    credits := u.credits - (bet : Int) + payout
    total_winnings := u.total_winnings + payout
    games_played := u.games_played + 1
    level := levelOf (u.games_played + 1)
    vip_status := decide (5 ≤ levelOf (u.games_played + 1)) }

/-- Milliseconds in 24 hours, the daily-bonus cooldown window. -/
def msPerDay : Nat := 86400000

/-- Modelled from the spec: daily-bonus amount, 100 + level x 25, doubled
for VIP accounts (the amount computation lives in the absent backend; the
client shows the same formula on the claim button). -/
def bonusAmount (level : Nat) (vip : Bool) : Nat :=
  let base := 100 + level * 25
  if vip then 2 * base else base

/-- The claim-button display amount of the GameDashboard component
(GameDashboard.js line 176): 100 + ((user.level or 1) * 25), with a
textual x2 marker for VIP. -/
def claimButtonAmount (level : Nat) : Nat :=
  100 + level * 25

/-- Modelled from the spec: the can_claim_bonus eligibility flag of the
absent /user-stats endpoint, read by checkDailyBonusStatus: claimable when
the last-bonus timestamp is null or at least 24h in the past. -/
def canClaimBonus (now : Nat) (u : UserState) : Bool :=
  match u.lastBonus with
  | none => true
  | some t => msPerDay ≤ now - t

/-- Outcome of a daily-bonus claim: the credited amount on success, or
the next eligible time on failure. -/
inductive ClaimOutcome where
  | success (amount : Nat)
  | alreadyClaimed (nextEligible : Nat)
deriving DecidableEq, Repr

/-- Modelled from the spec: the absent backend daily-bonus endpoint.
Claimable when the last-bonus timestamp is null or at least 24h old; on
success the account is credited with bonusAmount and the timestamp is set
to now; on failure nothing is mutated and the caller is told the next
eligible time, lastBonusTimestamp + 24h.  Timestamps in milliseconds. -/
def claimDailyBonus (now : Nat) (u : UserState) : ClaimOutcome × UserState :=
  match u.lastBonus with
  | none =>
      ( .success (bonusAmount u.level u.vip_status)
      , { u with
          credits := u.credits + (bonusAmount u.level u.vip_status : Int)
          lastBonus := some now } )
  | some t =>
      if msPerDay ≤ now - t then
        ( .success (bonusAmount u.level u.vip_status)
        , { u with
            credits := u.credits + (bonusAmount u.level u.vip_status : Int)
            lastBonus := some now } )
      else
        (.alreadyClaimed (t + msPerDay), u)

/-- Events of the SlotMachine UI: a slider bet change, or a resolved
spin request. -/
inductive UIEvent where
  | betChange (v : Nat)
  | spinResolve (r : SpinResult)
deriving DecidableEq, Repr

/-- Values the bet Slider can emit (GameDashboard.js lines 559-568):
min = config.minBet, max = min(config.maxBet, user.credits), step = 5. -/
def sliderOk (cfg : SlotConfig) (credits : Int) (v : Nat) : Bool :=
  cfg.minBet ≤ v && (v : Int) ≤ min (cfg.maxBet : Int) credits
    && (v - cfg.minBet) % 5 == 0

/-- One UI transition of the SlotMachine component: handleBetChange
(ignored while spinning, otherwise sets betAmount to the slider value) or
a handleSpin resolution. -/
def uiStep (cfg : SlotConfig) (s : UserState × GameState) (e : UIEvent) :
    UserState × GameState :=
  match e with
  | .betChange v =>
      if !s.2.isSpinning && sliderOk cfg s.1.credits v then
        (s.1, { s.2 with betAmount := v })
      else s
  | .spinResolve r =>
      let step := handleSpin s.1 s.2 r
      (step.user, step.game)

/-- The gameState right after a machine is selected: initial state
(GameDashboard.js lines 294-302) with the useEffect on slotType applied
(lines 334-345): reels reset per reel count and betAmount = config.minBet. -/
def initGameState (st : SlotType) : GameState :=
  { reels :=
      if st = .classic_3_reel then [.cherry, .lemon, .orange]
      else [.cherry, .lemon, .orange, .star, .bell]
    isSpinning := false
    betAmount := (slotConfig st).minBet
    lastWin := 0
    winType := none
    freeSpinsRemaining := 0
    bonusMultiplier := 1 }

/-- The UI state reached from machine selection after a list of events. -/
def uiRun (st : SlotType) (u0 : UserState) (evs : List UIEvent) :
    UserState × GameState :=
  evs.foldl (uiStep (slotConfig st)) (u0, initGameState st)

/-- A concrete fresh account used for concrete evaluations. -/
def sampleUser : UserState :=
  { credits := 100, total_winnings := 0, games_played := 0, level := 1
    vip_status := false, lastBonus := none }

/-- A concrete VIP account used for concrete evaluations. -/
def vipUser : UserState :=
  { credits := 0, total_winnings := 0, games_played := 400, level := 5
    vip_status := true, lastBonus := none }

/-- A concrete account that cannot afford a 10-credit bet. -/
def brokeUser : UserState :=
  { credits := 5, total_winnings := 0, games_played := 0, level := 1
    vip_status := false, lastBonus := none }

/-- A concrete losing backend response. -/
def loseResult : SpinResult :=
  { reels := [.cherry, .lemon, .orange], payout := 0, win_type := none
    free_spins_awarded := 0, multiplier := 1, bonus_triggered := false }

/-- A concrete small-win backend response. -/
def winResult : SpinResult :=
  { reels := [.bell, .bell, .bell], payout := 250, win_type := some .small
    free_spins_awarded := 0, multiplier := 1, bonus_triggered := false }

/-- A concrete idle game state holding one available free spin. -/
def freeSpinGame : GameState :=
  { reels := [.cherry, .lemon, .orange], isSpinning := false, betAmount := 10
    lastWin := 0, winType := none, freeSpinsRemaining := 1, bonusMultiplier := 1 }

/-- A concrete idle game state with bet 10 and no free spins. -/
def tenBetGame : GameState :=
  { reels := [.cherry, .lemon, .orange], isSpinning := false, betAmount := 10
    lastWin := 0, winType := none, freeSpinsRemaining := 0, bonusMultiplier := 1 }

/-- The betAmount field of gameState is never changed by a handleSpin
call (only handleBetChange writes it). -/
theorem handleSpin_betAmount (u : UserState) (gs : GameState) (r : SpinResult) :
    (handleSpin u gs r).game.betAmount = gs.betAmount := by
  unfold handleSpin
  split
  · rfl
  · split <;> rfl

/-- When the component is idle and the account can afford the bet,
handleSpin settles: the announced status, balance, counters and free-spin
total are exactly the ones written in the setTimeout callback. -/
theorem handleSpin_settles (u : UserState) (gs : GameState) (r : SpinResult)
    (hs : gs.isSpinning = false) (hc : ¬ u.credits < (gs.betAmount : Int)) :
    handleSpin u gs r =
      { status := .settled
        user :=
          { u with
            credits := u.credits - (gs.betAmount : Int) + r.payout
            total_winnings := u.total_winnings + r.payout
            games_played := u.games_played + 1 }
        game :=
          { gs with
            isSpinning := false
            reels := r.reels
            lastWin := r.payout
            winType := r.win_type
            freeSpinsRemaining := gs.freeSpinsRemaining + r.free_spins_awarded
            bonusMultiplier := r.multiplier } } := by
  simp [handleSpin, hs, hc]

/-- C1: for every spin resolved with a valid bet the new balance equals
the old balance minus the bet plus the payout, exactly, and this
bookkeeping accumulates no drift: after any sequence of settled spins the
balance equals the initial balance plus the running sum of payouts minus
the running sum of bets. -/
theorem spin_sequence_balance (u : UserState) (gs : GameState)
    (l : List (Nat × SpinResult)) (h : allSettled u gs l = true) :
    (runSpins u gs l).1.credits = u.credits + sumPayouts l - sumBets l := by
  induction l generalizing u gs with
  | nil => simp [runSpins, sumPayouts, sumBets]
  | cons p rest ih =>
      obtain ⟨b, r⟩ := p
      simp only [allSettled, Bool.and_eq_true, beq_iff_eq] at h
      obtain ⟨h1, h2⟩ := h
      cases hs : gs.isSpinning with
      | true => rw [show (handleSpin u { gs with betAmount := b } r).status
            = .busy by simp [handleSpin, hs]] at h1; exact absurd h1 (by simp)
      | false =>
        by_cases hc : u.credits < (b : Int)
        · rw [show (handleSpin u { gs with betAmount := b } r).status
            = .insufficientCredits by simp [handleSpin, hs, hc]] at h1
          exact absurd h1 (by simp)
        · have hstep := handleSpin_settles u { gs with betAmount := b } r hs hc
          simp only [runSpins, hstep] at h2 ⊢
          rw [ih _ _ h2]
          simp [sumPayouts, sumBets]
          ring

/-- Witness for C1 at a concrete two-spin run: a 250-credit win at bet 10
followed by a losing spin at bet 20 moves the balance from 100 to 320. -/
theorem spin_sequence_balance_witness :
    allSettled sampleUser (initGameState .classic_3_reel)
      [(10, winResult), (20, loseResult)] = true ∧
    (runSpins sampleUser (initGameState .classic_3_reel)
      [(10, winResult), (20, loseResult)]).1.credits
      = sampleUser.credits
          + sumPayouts [(10, winResult), (20, loseResult)]
          - sumBets [(10, winResult), (20, loseResult)] :=
  ⟨by decide
  , spin_sequence_balance sampleUser (initGameState .classic_3_reel)
      [(10, winResult), (20, loseResult)] (by decide)⟩

/-- C2 evaluated at the failing input: the account holds 100 credits and
one available free spin, the bet is 10 and the spin pays 0; the client
still settles, debits the bet (credits become 90, not 100) and leaves the
free-spins counter at 1 instead of decrementing it. -/
theorem free_spin_still_debits :
    (handleSpin sampleUser freeSpinGame loseResult).status = .settled ∧
    (handleSpin sampleUser freeSpinGame loseResult).user.credits
      = sampleUser.credits - 10 + loseResult.payout ∧
    (handleSpin sampleUser freeSpinGame loseResult).user.credits
      ≠ sampleUser.credits + loseResult.payout ∧
    (handleSpin sampleUser freeSpinGame loseResult).game.freeSpinsRemaining
      = freeSpinGame.freeSpinsRemaining := by
  decide

/-- C4: a spin request from an idle machine with no free spins available
and balance below the bet is rejected with the insufficient-credits error
and mutates nothing: user and game state are returned unchanged. -/
theorem insufficient_credits_rejected (u : UserState) (gs : GameState) (r : SpinResult)
    (hns : gs.isSpinning = false) (_hfs : gs.freeSpinsRemaining = 0)
    (hlt : u.credits < (gs.betAmount : Int)) :
    (handleSpin u gs r).status = .insufficientCredits ∧
    (handleSpin u gs r).user = u ∧
    (handleSpin u gs r).game = gs := by
  simp [handleSpin, hns, hlt]

/-- Witness for C4: balance 5, bet 10, no free spins: rejected and the
balance stays 5. -/
theorem insufficient_credits_rejected_witness :
    (handleSpin brokeUser tenBetGame loseResult).status = .insufficientCredits ∧
    (handleSpin brokeUser tenBetGame loseResult).user = brokeUser ∧
    (handleSpin brokeUser tenBetGame loseResult).game = tenBetGame :=
  insufficient_credits_rejected brokeUser tenBetGame loseResult
    (by decide) (by decide) (by decide)

/-- C3: a second daily-bonus claim issued within 24 hours of a successful
claim fails with AlreadyClaimed, returns the account unchanged, and
reports the next eligible time, last claim + 24h. -/
theorem daily_bonus_no_double_claim (u : UserState) (now now2 : Nat)
    (h1 : canClaimBonus now u = true) (h2 : now2 < now + msPerDay) :
    claimDailyBonus now2 (claimDailyBonus now u).2
      = (ClaimOutcome.alreadyClaimed (now + msPerDay), (claimDailyBonus now u).2) := by
  have hpos : 0 < msPerDay := by decide
  have hlt : ¬ msPerDay ≤ now2 - now := by omega
  cases hlb : u.lastBonus with
  | none => simp [claimDailyBonus, hlb, hlt]
  | some t =>
      have ht : msPerDay ≤ now - t := by simpa [canClaimBonus, hlb] using h1
      simp [claimDailyBonus, hlb, ht, hlt]

/-- Witness for C3: a fresh account claims at time 1000 and again at time
2000, well inside the 24h window. -/
theorem daily_bonus_no_double_claim_witness :
    canClaimBonus 1000 sampleUser = true ∧ 2000 < 1000 + msPerDay ∧
    claimDailyBonus 2000 (claimDailyBonus 1000 sampleUser).2
      = (ClaimOutcome.alreadyClaimed (1000 + msPerDay), (claimDailyBonus 1000 sampleUser).2) :=
  ⟨by decide, by decide,
    daily_bonus_no_double_claim sampleUser 1000 2000 (by decide) (by decide)⟩

/-- C6: after every settled spin the account level equals
floor(games played / 100) + 1, and after exactly 250 games the level
is 3. -/
theorem level_is_pure_function (u : UserState) (bet : Nat) (payout : Int) :
    (serverSettle u bet payout).level
      = (serverSettle u bet payout).games_played / 100 + 1 ∧
    levelOf 250 = 3 := by
  constructor
  · simp [serverSettle, levelOf]
  · decide

/-- C7: an eligible daily-bonus claim credits exactly the announced
amount: 100 + level x 25, doubled when the VIP flag is set; the claim
button of the dashboard displays the same base formula. -/
theorem daily_bonus_amount_formula (u : UserState) (now : Nat)
    (h : canClaimBonus now u = true) :
    (claimDailyBonus now u).1 = .success (bonusAmount u.level u.vip_status) ∧
    (claimDailyBonus now u).2.credits
      = u.credits + (bonusAmount u.level u.vip_status : Int) ∧
    bonusAmount u.level false = 100 + u.level * 25 ∧
    bonusAmount u.level true = 2 * (100 + u.level * 25) ∧
    claimButtonAmount u.level = 100 + u.level * 25 := by
  refine ⟨?_, ?_, by simp [bonusAmount], by simp [bonusAmount], by simp [claimButtonAmount]⟩
  all_goals cases hlb : u.lastBonus with
  | none => simp [claimDailyBonus, hlb]
  | some t =>
      have ht : msPerDay ≤ now - t := by simpa [canClaimBonus, hlb] using h
      simp [claimDailyBonus, hlb, ht]

/-- Witness for C7: the VIP account at level 5 is credited
2 x (100 + 5 x 25) = 450 credits. -/
theorem daily_bonus_amount_formula_witness :
    canClaimBonus 0 vipUser = true ∧
    ((claimDailyBonus 0 vipUser).1 = .success (bonusAmount vipUser.level vipUser.vip_status) ∧
     (claimDailyBonus 0 vipUser).2.credits
       = vipUser.credits + (bonusAmount vipUser.level vipUser.vip_status : Int) ∧
     bonusAmount vipUser.level false = 100 + vipUser.level * 25 ∧
     bonusAmount vipUser.level true = 2 * (100 + vipUser.level * 25) ∧
     claimButtonAmount vipUser.level = 100 + vipUser.level * 25) :=
  ⟨by decide, daily_bonus_amount_formula vipUser 0 (by decide)⟩

/-- C8: on the classic machine a bet-10 spin whose reels come back as
three diamonds is classified as jackpot, pays 10 x 1000 = 10000, and the
settled balance is the old balance - 10 + 10000. -/
theorem classic_diamond_jackpot (u : UserState) (gs : GameState)
    (hns : gs.isSpinning = false) (hbet : gs.betAmount = 10)
    (hcr : (10 : Int) ≤ u.credits) :
    (resolveSpin .classic_3_reel 10 [.diamond, .diamond, .diamond]).win_type
      = some .jackpot ∧
    (resolveSpin .classic_3_reel 10 [.diamond, .diamond, .diamond]).payout
      = 10 * 1000 ∧
    (handleSpin u gs (resolveSpin .classic_3_reel 10 [.diamond, .diamond, .diamond])).status
      = .settled ∧
    (handleSpin u gs (resolveSpin .classic_3_reel 10 [.diamond, .diamond, .diamond])).user.credits
      = u.credits - 10 + 10000 := by
  have hc : ¬ u.credits < (gs.betAmount : Int) := by
    rw [hbet]
    omega
  have hstep := handleSpin_settles u gs
    (resolveSpin .classic_3_reel 10 [.diamond, .diamond, .diamond]) hns hc
  refine ⟨by decide, by decide, ?_, ?_⟩
  · rw [hstep]
  · rw [hstep]
    show u.credits - (gs.betAmount : Int)
        + (resolveSpin .classic_3_reel 10 [.diamond, .diamond, .diamond]).payout
      = u.credits - 10 + 10000
    rw [hbet, show (resolveSpin .classic_3_reel 10 [.diamond, .diamond, .diamond]).payout
      = 10000 from by decide]
    norm_num

/-- Witness for C8 at the fresh 100-credit account with bet 10. -/
theorem classic_diamond_jackpot_witness :
    (resolveSpin .classic_3_reel 10 [.diamond, .diamond, .diamond]).win_type
      = some .jackpot ∧
    (resolveSpin .classic_3_reel 10 [.diamond, .diamond, .diamond]).payout
      = 10 * 1000 ∧
    (handleSpin sampleUser tenBetGame
      (resolveSpin .classic_3_reel 10 [.diamond, .diamond, .diamond])).status
      = .settled ∧
    (handleSpin sampleUser tenBetGame
      (resolveSpin .classic_3_reel 10 [.diamond, .diamond, .diamond])).user.credits
      = sampleUser.credits - 10 + 10000 :=
  classic_diamond_jackpot sampleUser tenBetGame (by decide) (by decide) (by decide)

/-- A run of reels containing the bonus symbol can match no all-equal
paytable pattern built on another symbol. -/
theorem all_eq_false_of_gift_count (e : ReelSymbol) (he : e ≠ .gift)
    (syms : List ReelSymbol) (hc : syms.count .gift = 3) :
    syms.all (fun s => s == e) = false := by
  have hmem : ReelSymbol.gift ∈ syms := List.count_pos_iff.mp (by omega)
  cases hall : syms.all (fun s => s == e) with
  | false => rfl
  | true =>
      have hge := List.all_eq_true.mp hall _ hmem
      rw [beq_iff_eq] at hge
      exact absurd hge.symm he

/-- C9: on the five-reel bonus machine, reels containing 3 bonus symbols
and 2 others trigger the bonus, award the configured 10 free spins, carry
no payout (the bonus symbol has no direct paytable entry), and the client
raises the account free-spin counter by exactly 10. -/
theorem bonus_symbols_award_free_spins (syms : List ReelSymbol)
    (u : UserState) (gs : GameState)
    (_hlen : syms.length = 5) (hcount : syms.count .gift = 3)
    (hns : gs.isSpinning = false) (hcr : (gs.betAmount : Int) ≤ u.credits) :
    (resolveSpin .bonus_slots gs.betAmount syms).bonus_triggered = true ∧
    (resolveSpin .bonus_slots gs.betAmount syms).free_spins_awarded = 10 ∧
    (resolveSpin .bonus_slots gs.betAmount syms).payout = 0 ∧
    (handleSpin u gs (resolveSpin .bonus_slots gs.betAmount syms)).game.freeSpinsRemaining
      = gs.freeSpinsRemaining + 10 := by
  have h1 := all_eq_false_of_gift_count .crown (by decide) syms hcount
  have h2 := all_eq_false_of_gift_count .diamond (by decide) syms hcount
  have h3 := all_eq_false_of_gift_count .moneybag (by decide) syms hcount
  have hfm : findMatch (paytable .bonus_slots) syms = none := by
    simp [findMatch, paytable, List.find?, h1, h2, h3]
  have heval : evaluate .bonus_slots syms =
      { tier := none, multiplier := 0, bonusTriggered := true, freeSpinsAwarded := 10 } := by
    simp [evaluate, hfm, bonusInfo, hcount]
  have hres : resolveSpin .bonus_slots gs.betAmount syms =
      { reels := syms, payout := 0, win_type := none
        free_spins_awarded := 10, multiplier := 1, bonus_triggered := true } := by
    simp [resolveSpin, heval]
  have hc : ¬ u.credits < (gs.betAmount : Int) := by omega
  have hstep := handleSpin_settles u gs (resolveSpin .bonus_slots gs.betAmount syms) hns hc
  rw [hres] at hstep ⊢
  rw [hstep]
  exact ⟨rfl, rfl, rfl, rfl⟩

/-- Witness for C9: reels gift, gift, gift, cherry, lemon on the bonus
machine at the fresh account with bet 10. -/
theorem bonus_symbols_award_free_spins_witness :
    (resolveSpin .bonus_slots tenBetGame.betAmount
      [.gift, .gift, .gift, .cherry, .lemon]).bonus_triggered = true ∧
    (resolveSpin .bonus_slots tenBetGame.betAmount
      [.gift, .gift, .gift, .cherry, .lemon]).free_spins_awarded = 10 ∧
    (resolveSpin .bonus_slots tenBetGame.betAmount
      [.gift, .gift, .gift, .cherry, .lemon]).payout = 0 ∧
    (handleSpin sampleUser tenBetGame (resolveSpin .bonus_slots tenBetGame.betAmount
      [.gift, .gift, .gift, .cherry, .lemon])).game.freeSpinsRemaining
      = tenBetGame.freeSpinsRemaining + 10 :=
  bonus_symbols_award_free_spins [.gift, .gift, .gift, .cherry, .lemon]
    sampleUser tenBetGame (by decide) (by decide) (by decide) (by decide)

/-- One UI transition keeps the bet inside the machine bounds and on the
5-credit grid. -/
theorem uiStep_bet_inv (cfg : SlotConfig) (h5 : cfg.minBet % 5 = 0)
    (s : UserState × GameState) (e : UIEvent)
    (h : cfg.minBet ≤ s.2.betAmount ∧ s.2.betAmount ≤ cfg.maxBet
      ∧ s.2.betAmount % 5 = 0) :
    cfg.minBet ≤ (uiStep cfg s e).2.betAmount
      ∧ (uiStep cfg s e).2.betAmount ≤ cfg.maxBet
      ∧ (uiStep cfg s e).2.betAmount % 5 = 0 := by
  obtain ⟨ha, hb, hm⟩ := h
  cases e with
  | betChange v =>
      by_cases hok : (!s.2.isSpinning && sliderOk cfg s.1.credits v) = true
      · have hsl : sliderOk cfg s.1.credits v = true := (Bool.and_eq_true _ _ |>.mp hok).2
        simp only [sliderOk, Bool.and_eq_true, decide_eq_true_eq, beq_iff_eq] at hsl
        obtain ⟨⟨hv1, hv2⟩, hv3⟩ := hsl
        have hvmax : v ≤ cfg.maxBet := by
          have hle : (v : Int) ≤ (cfg.maxBet : Int) :=
            le_trans hv2 (min_le_left _ _)
          exact_mod_cast hle
        have hv5 : v % 5 = 0 := by omega
        simp only [uiStep, hok, if_true]
        exact ⟨hv1, hvmax, hv5⟩
      · simp only [uiStep, hok, if_false]
        exact ⟨ha, hb, hm⟩
  | spinResolve r =>
      simp only [uiStep, handleSpin_betAmount]
      exact ⟨ha, hb, hm⟩

/-- The bet invariant holds along every event trace. -/
theorem uiRun_bet_inv_aux (cfg : SlotConfig) (h5 : cfg.minBet % 5 = 0)
    (evs : List UIEvent) (s : UserState × GameState)
    (h : cfg.minBet ≤ s.2.betAmount ∧ s.2.betAmount ≤ cfg.maxBet
      ∧ s.2.betAmount % 5 = 0) :
    cfg.minBet ≤ (evs.foldl (uiStep cfg) s).2.betAmount
      ∧ (evs.foldl (uiStep cfg) s).2.betAmount ≤ cfg.maxBet
      ∧ (evs.foldl (uiStep cfg) s).2.betAmount % 5 = 0 := by
  induction evs generalizing s with
  | nil => exact h
  | cons e rest ih => exact ih (uiStep cfg s e) (uiStep_bet_inv cfg h5 s e h)

/-- C10: the bet starts at the machine minimum when a machine is
selected, and in every state the UI can reach it stays in
[minBet, maxBet] on the 5-credit grid; whenever the spin guard lets a
request through (credits cover the bet), the issued bet therefore lies in
[minBet, min(maxBet, credits)]. -/
theorem bet_always_clamped (st : SlotType) (u0 : UserState) (evs : List UIEvent) :
    (initGameState st).betAmount = (slotConfig st).minBet ∧
    (slotConfig st).minBet ≤ (uiRun st u0 evs).2.betAmount ∧
    (uiRun st u0 evs).2.betAmount ≤ (slotConfig st).maxBet ∧
    (uiRun st u0 evs).2.betAmount % 5 = 0 ∧
    (((uiRun st u0 evs).2.betAmount : Int) ≤ (uiRun st u0 evs).1.credits →
      ((uiRun st u0 evs).2.betAmount : Int)
        ≤ min ((slotConfig st).maxBet : Int) (uiRun st u0 evs).1.credits) := by
  have h5 : (slotConfig st).minBet % 5 = 0 := by cases st <;> decide
  have hinit : (slotConfig st).minBet ≤ (initGameState st).betAmount
      ∧ (initGameState st).betAmount ≤ (slotConfig st).maxBet
      ∧ (initGameState st).betAmount % 5 = 0 := by
    cases st <;> exact ⟨by decide, by decide, by decide⟩
  have hrun := uiRun_bet_inv_aux (slotConfig st) h5 evs (u0, initGameState st) hinit
  refine ⟨rfl, hrun.1, hrun.2.1, hrun.2.2, ?_⟩
  intro hcred
  have hmax : ((uiRun st u0 evs).2.betAmount : Int) ≤ ((slotConfig st).maxBet : Int) := by
    exact_mod_cast hrun.2.1
  exact le_min hmax hcred

/-- Witness for C10 at the classic machine after a bet change to 20 and a
settled losing spin. -/
theorem bet_always_clamped_witness :
    (initGameState .classic_3_reel).betAmount = (slotConfig .classic_3_reel).minBet ∧
    (slotConfig .classic_3_reel).minBet
      ≤ (uiRun .classic_3_reel sampleUser
          [.betChange 20, .spinResolve loseResult]).2.betAmount ∧
    (uiRun .classic_3_reel sampleUser
        [.betChange 20, .spinResolve loseResult]).2.betAmount
      ≤ (slotConfig .classic_3_reel).maxBet ∧
    (uiRun .classic_3_reel sampleUser
        [.betChange 20, .spinResolve loseResult]).2.betAmount % 5 = 0 ∧
    (((uiRun .classic_3_reel sampleUser
        [.betChange 20, .spinResolve loseResult]).2.betAmount : Int)
        ≤ (uiRun .classic_3_reel sampleUser
            [.betChange 20, .spinResolve loseResult]).1.credits →
      ((uiRun .classic_3_reel sampleUser
          [.betChange 20, .spinResolve loseResult]).2.betAmount : Int)
        ≤ min ((slotConfig .classic_3_reel).maxBet : Int)
            (uiRun .classic_3_reel sampleUser
              [.betChange 20, .spinResolve loseResult]).1.credits) :=
  bet_always_clamped .classic_3_reel sampleUser [.betChange 20, .spinResolve loseResult]
